import Mathlib

/-!
Verification of the `uniformers` repository: the label-to-special-token
mapper `Poetry2Tokens` (src/uniformers/utils/tokenizer.py) and the
checkpoint-resume / dataset-split bookkeeping of
`PoetryClassificationTrainer` (src/uniformers/trainers/poetry_classification.py).

Python features are embedded as follows: a Python dict comprehension
becomes an association list whose lookup takes the LAST matching key
(later dict assignments overwrite earlier ones); Python list indexing
`xs[i]` becomes `pyGet`, which wraps a negative index by the length and
returns `none` on an IndexError; `enumerate(xs, start)` becomes
`pyEnumerate start xs`; `raise` in a constructor becomes `Except.error`;
in-place mutation of the tokenizer object becomes a returned updated
record.
-/

/-- Python list indexing `xs[i]`: a negative index counts from the end;
an index out of range (IndexError) is `none`. -/
def pyGet (xs : List α) (i : Int) : Option α :=
  let j : Int := if i < 0 then i + xs.length else i
  if 0 ≤ j then xs[j.toNat]? else none

/-- Python `enumerate(xs, start)`: pairs every element with its index,
starting from `start` (an `Int`, since the source computes starts like
`len(A) - 1` which can be negative). -/
def pyEnumerate (start : Int) : List α → List (Int × α)
  | [] => []
  | x :: xs => (start, x) :: pyEnumerate (start + 1) xs

/-- Lookup in an association list built by a Python dict comprehension:
the LAST pair with the matching key wins, because later assignments to
the same key overwrite earlier ones. -/
def dictLookup : List (String × β) → String → Option β
  | [], _ => none
  | (k, v) :: rest, key =>
    match dictLookup rest key with
    | some w => some w
    | none => if k = key then some v else none

/-- The tokenizer object as `Poetry2Tokens.__init__` sees it: the
reserved special-token list, token-to-id conversion, the
`isinstance(tokenizer, ByGPT5Tokenizer)` test (a class membership fact,
embedded as a flag), and the attributes the constructor may mutate. -/
structure Tokenizer where
  additional_special_tokens : List String
  convert_token_to_id : String → Int
  isByGPT5 : Bool
  add_bos_token : Bool
  add_eos_token : Bool
  bos_token : String
  eos_token : String

/-- State of a constructed `Poetry2Tokens` object
(src/uniformers/utils/tokenizer.py, lines 24-28). -/
structure Poetry2Tokens where
  tokenizer : Tokenizer
  _alliteration_levels : List String
  _meters : List String
  _rhyme_schemes : List String
  _additional_special_ids : List Int

/-- `Poetry2Tokens.__init__` (src/uniformers/utils/tokenizer.py, lines
8-28): raise `ValueError` when the three label counts together exceed
the reserved-token count; otherwise, if the tokenizer is a
`ByGPT5Tokenizer`, set `add_bos_token`/`add_eos_token` and make
`bos_token` equal `eos_token`; store the label lists and precompute
`_additional_special_ids` by converting every reserved token to its id.
The (possibly mutated) tokenizer is stored in the object. -/
def Poetry2Tokens.init (tokenizer : Tokenizer)
    (alliteration_levels meters rhyme_schemes : List String) :
    Except String Poetry2Tokens :=
  if alliteration_levels.length + meters.length + rhyme_schemes.length >
      tokenizer.additional_special_tokens.length then
    .error "Number of special poetry tokens exceeds vocabulary size!"
  else
    let tokenizer :=
      if tokenizer.isByGPT5 then
        { tokenizer with
          add_bos_token := true
          add_eos_token := true
          bos_token := tokenizer.eos_token }
      else tokenizer
    .ok
      { tokenizer := tokenizer
        _alliteration_levels := alliteration_levels
        _meters := meters
        _rhyme_schemes := rhyme_schemes
        _additional_special_ids :=
          tokenizer.additional_special_tokens.map tokenizer.convert_token_to_id }

/-- Build the dict `{level: xs[idx] for idx, level in enumerate(labels, start)}`:
`none` when some index access raises IndexError. -/
def buildDict (xs : List γ) (start : Int) (labels : List String) :
    Option (List (String × γ)) :=
  (pyEnumerate start labels).mapM
    (fun il => (pyGet xs il.1).map (fun t => (il.2, t)))

/-- `alliterations2tokens` property (tokenizer.py, lines 30-33). -/
def Poetry2Tokens.alliterations2tokens (p : Poetry2Tokens) :
    Option (List (String × String)) :=
  buildDict p.tokenizer.additional_special_tokens 0 p._alliteration_levels

/-- `alliterations2ids` property (tokenizer.py, lines 35-38). -/
def Poetry2Tokens.alliterations2ids (p : Poetry2Tokens) :
    Option (List (String × Int)) :=
  buildDict p._additional_special_ids 0 p._alliteration_levels

/-- `meters2tokens` property (tokenizer.py, lines 40-44):
`offset = len(self._alliteration_levels) - 1`. -/
def Poetry2Tokens.meters2tokens (p : Poetry2Tokens) :
    Option (List (String × String)) :=
  buildDict p.tokenizer.additional_special_tokens
    ((p._alliteration_levels.length : Int) - 1) p._meters

/-- `meters2ids` property (tokenizer.py, lines 46-50). -/
def Poetry2Tokens.meters2ids (p : Poetry2Tokens) :
    Option (List (String × Int)) :=
  buildDict p._additional_special_ids
    ((p._alliteration_levels.length : Int) - 1) p._meters

/-- `rhymes2tokens` property (tokenizer.py, lines 52-56):
`offset = len(self._alliteration_levels) + len(self._meters) - 1`. -/
def Poetry2Tokens.rhymes2tokens (p : Poetry2Tokens) :
    Option (List (String × String)) :=
  buildDict p.tokenizer.additional_special_tokens
    ((p._alliteration_levels.length : Int) + p._meters.length - 1) p._rhyme_schemes

/-- `rhymes2ids` property (tokenizer.py, lines 58-62). -/
def Poetry2Tokens.rhymes2ids (p : Poetry2Tokens) :
    Option (List (String × Int)) :=
  buildDict p._additional_special_ids
    ((p._alliteration_levels.length : Int) + p._meters.length - 1) p._rhyme_schemes

/-- The value of the Python expression `d[key]` where `d` is one of the
six mapping properties: `none` when the dict comprehension raised or the
key is absent. -/
def dget (od : Option (List (String × γ))) (key : String) : Option γ :=
  od.bind (fun d => dictLookup d key)

/-- Every index the six mapping properties pass to the reserved-token or
reserved-id list: `enumerate(A)`, `enumerate(M, len(A)-1)`,
`enumerate(R, len(A)+len(M)-1)` (tokenizer.py, lines 30-62). The id list
has the same length as the token list, so one index list covers both. -/
def Poetry2Tokens.usedIndices (p : Poetry2Tokens) : List Int :=
  (pyEnumerate 0 p._alliteration_levels).map Prod.fst ++
    (pyEnumerate ((p._alliteration_levels.length : Int) - 1) p._meters).map Prod.fst ++
    (pyEnumerate ((p._alliteration_levels.length : Int) + p._meters.length - 1)
        p._rhyme_schemes).map Prod.fst

/-- `PoetryClassificationTrainer.train` (poetry_classification.py, lines
146-167), reduced to the value it passes as `resume_from_checkpoint` to
the framework's `train`.  The filesystem probes `isdir(output_dir)`,
`get_last_checkpoint(output_dir)` and `isfile(join(output_dir,
"config.json"))` are external; their results are parameters. -/
def trainResumeCheckpoint (overwrite_output_dir : Bool) (outputDirExists : Bool)
    (lastCheckpoint : Option String) (configJsonExists : Bool)
    (output_dir : String) : Option String :=
  if !overwrite_output_dir && outputDirExists then
    if configJsonExists then some output_dir
    else lastCheckpoint
  else none

/-- The condition under which `train` takes the branch that logs
"... Skipping training." and substitutes the output directory itself for
the checkpoint (poetry_classification.py, lines 154-158). -/
def trainSkipsTraining (overwrite_output_dir outputDirExists configJsonExists : Bool) :
    Bool :=
  !overwrite_output_dir && outputDirExists && configJsonExists

/-- Arguments of one `train_test_split` call. -/
structure StratifiedSplit where
  test_size : ℚ
  stratify_by_column : String

/-- The first split in `load_dataset` (poetry_classification.py, lines
126-128): `test_size=0.1, stratify_by_column="labels"`. -/
def loadDatasetSplit1 : StratifiedSplit := ⟨1 / 10, "labels"⟩

/-- The second split in `load_dataset` (poetry_classification.py, lines
129-131), applied to the held-out part: `test_size=0.5,
stratify_by_column="labels"`. -/
def loadDatasetSplit2 : StratifiedSplit := ⟨1 / 2, "labels"⟩

/-- Sizes of the (train, eval, test) parts produced by `load_dataset`'s
two chained splits on a dataset of size `n`, under exact-proportion
semantics of the external `train_test_split` (a split with `test_size=t`
holds out `t·n` rows and keeps the remaining `n - t·n`). -/
def loadDatasetSplitSizes (n : ℚ) : ℚ × ℚ × ℚ :=
  let tmp := n * loadDatasetSplit1.test_size
  let train := n - tmp
  let testPart := tmp * loadDatasetSplit2.test_size
  let evalPart := tmp - testPart
  (train, evalPart, testPart)

/-- The split datasets a trainer holds after construction. -/
structure TrainerDatasets (δ : Type) where
  train_dataset : δ
  eval_dataset : δ
  test_dataset : δ

/-- `PoetryClassificationTrainer.__init__`, line 99:
`train_dataset, eval_dataset, self.test_dataset = self.load_dataset(task)` —
the triple returned by `load_dataset` is unpacked once at construction
and the third component is stored as the trainer's test split. -/
def trainerInitDatasets (δ : Type) (loadResult : δ × δ × δ) : TrainerDatasets δ :=
  ⟨loadResult.1, loadResult.2.1, loadResult.2.2⟩

/-- A concrete tokenizer with three pairwise-distinct reserved tokens
and distinct ids, used to instantiate the theorems. -/
def wTok : Tokenizer :=
  { additional_special_tokens := ["t0", "t1", "t2"]
    convert_token_to_id := fun t => if t = "t0" then 10 else if t = "t1" then 11 else 12
    isByGPT5 := false
    add_bos_token := false
    add_eos_token := false
    bos_token := "<s>"
    eos_token := "<e>" }

/-- The same tokenizer marked as a `ByGPT5Tokenizer`. -/
def wTokB : Tokenizer := { wTok with isByGPT5 := true }

/-- The mapper `Poetry2Tokens.init wTok ["a"] ["m"] ["r"]` constructs. -/
def wP : Poetry2Tokens :=
  { tokenizer := wTok
    _alliteration_levels := ["a"]
    _meters := ["m"]
    _rhyme_schemes := ["r"]
    _additional_special_ids :=
      wTok.additional_special_tokens.map wTok.convert_token_to_id }

/-- The tokenizer state after the ByGPT5 branch of the constructor. -/
def wTokMut : Tokenizer :=
  { wTokB with
    add_bos_token := true
    add_eos_token := true
    bos_token := wTokB.eos_token }

/-- The mapper `Poetry2Tokens.init wTokB ["a"] ["m"] ["r"]` constructs. -/
def wPB : Poetry2Tokens :=
  { tokenizer := wTokMut
    _alliteration_levels := ["a"]
    _meters := ["m"]
    _rhyme_schemes := ["r"]
    _additional_special_ids :=
      wTokMut.additional_special_tokens.map wTokMut.convert_token_to_id }

/-! ## Supporting lemmas -/

theorem isSome_getElem_opt (xs : List α) (n : Nat) :
    xs[n]?.isSome ↔ n < xs.length := by
  constructor
  · intro h
    by_contra hn
    rw [List.getElem?_eq_none (by omega)] at h
    simp at h
  · intro h
    rw [List.getElem?_eq_getElem h]
    rfl

theorem pyGet_ofNat (xs : List α) (i : Int) (h : 0 ≤ i) :
    pyGet xs i = xs[i.toNat]? := by
  simp only [pyGet]
  rw [show (if i < 0 then i + (xs.length : Int) else i) = i from if_neg (by omega),
    if_pos h]

theorem pyGet_isSome (xs : List α) (i : Int) :
    (pyGet xs i).isSome ↔ -(xs.length : Int) ≤ i ∧ i < (xs.length : Int) := by
  simp only [pyGet]
  by_cases h : i < 0
  · rw [show (if i < 0 then i + (xs.length : Int) else i) = i + xs.length from if_pos h]
    by_cases h2 : (0 : Int) ≤ i + xs.length
    · rw [if_pos h2, isSome_getElem_opt]
      omega
    · rw [if_neg h2]
      simp only [Option.isSome_none, Bool.false_eq_true, false_iff]
      omega
  · rw [show (if i < 0 then i + (xs.length : Int) else i) = i from if_neg h,
      if_pos (by omega), isSome_getElem_opt]
    omega

theorem pyGet_inj (xs : List α) (hxs : xs.Nodup) (i j : Int)
    (hi : 0 ≤ i) (hj : 0 ≤ j) (hi2 : i < (xs.length : Int)) (hj2 : j < (xs.length : Int))
    (heq : pyGet xs i = pyGet xs j) : i = j := by
  rw [pyGet_ofNat xs i hi, pyGet_ofNat xs j hj] at heq
  rw [List.getElem?_eq_getElem (by omega), List.getElem?_eq_getElem (by omega)] at heq
  have := (List.Nodup.getElem_inj_iff hxs).mp (Option.some.inj heq)
  omega

theorem pyGet_map (xs : List α) (g : α → β) (i : Int) :
    pyGet (xs.map g) i = (pyGet xs i).map g := by
  simp only [pyGet, List.length_map]
  by_cases h : (0 : Int) ≤ if i < 0 then i + xs.length else i
  · rw [if_pos h, if_pos h, List.getElem?_map]
  · rw [if_neg h, if_neg h]
    rfl

theorem pyEnumerate_length (s : Int) (xs : List α) :
    (pyEnumerate s xs).length = xs.length := by
  induction xs generalizing s with
  | nil => rfl
  | cons x xs ih => simp [pyEnumerate, ih]

theorem pyEnumerate_fst_mem (s : Int) (xs : List α) (t : Int) :
    t ∈ (pyEnumerate s xs).map Prod.fst ↔ s ≤ t ∧ t < s + (xs.length : Int) := by
  induction xs generalizing s with
  | nil => simp [pyEnumerate]
  | cons x xs ih =>
    simp only [pyEnumerate, List.map_cons, List.mem_cons, ih, List.length_cons]
    omega

theorem buildDict_nil (xs : List γ) (s : Int) : buildDict xs s [] = some [] := rfl

theorem buildDict_cons (xs : List γ) (s : Int) (l : String) (L : List String) :
    buildDict xs s (l :: L) =
      (pyGet xs s).bind
        (fun t => (buildDict xs (s + 1) L).map (fun d => (l, t) :: d)) := by
  simp only [buildDict, pyEnumerate, List.mapM_cons]
  cases pyGet xs s with
  | none => rfl
  | some t =>
    cases (pyEnumerate (s + 1) L).mapM
        (fun il => (pyGet xs il.1).map (fun u => (il.2, u))) with
    | none => rfl
    | some d => rfl

theorem buildDict_isSome (xs : List γ) (s : Int) (L : List String) :
    (buildDict xs s L).isSome ↔
      ∀ t : Int, s ≤ t → t < s + (L.length : Int) → (pyGet xs t).isSome := by
  induction L generalizing s with
  | nil =>
    rw [buildDict_nil]
    simp only [Option.isSome_some, List.length_nil, true_iff]
    intro t h1 h2
    omega
  | cons l L ih =>
    rw [buildDict_cons]
    cases hg : pyGet xs s with
    | none =>
      simp only [Option.none_bind, Option.isSome_none, Bool.false_eq_true, false_iff]
      intro hall
      have h0 := hall s (le_refl s) (by simp only [List.length_cons]; omega)
      rw [hg] at h0
      simp at h0
    | some v =>
      simp only [Option.some_bind, Option.isSome_map', ih]
      constructor
      · intro hall t h1 h2
        rcases eq_or_lt_of_le h1 with rfl | hlt
        · rw [hg]; rfl
        · refine hall t (by omega) ?_
          simp only [List.length_cons] at h2
          omega
      · intro hall t h1 h2
        refine hall t (by omega) ?_
        simp only [List.length_cons]
        omega

theorem buildDict_keys (xs : List γ) (s : Int) (L : List String)
    (d : List (String × γ)) (h : buildDict xs s L = some d) :
    d.map Prod.fst = L := by
  induction L generalizing s d with
  | nil =>
    rw [buildDict_nil] at h
    cases h
    rfl
  | cons l L ih =>
    rw [buildDict_cons] at h
    cases hg : pyGet xs s with
    | none => rw [hg] at h; simp at h
    | some v =>
      rw [hg] at h
      cases hrest : buildDict xs (s + 1) L with
      | none => rw [hrest] at h; simp at h
      | some d' =>
        rw [hrest] at h
        simp only [Option.some_bind, Option.map_some'] at h
        cases h
        simp only [List.map_cons]
        rw [ih (s + 1) d' hrest]

theorem dictLookup_not_mem (d : List (String × γ)) (k : String)
    (h : k ∉ d.map Prod.fst) : dictLookup d k = none := by
  induction d with
  | nil => rfl
  | cons kv d ih =>
    obtain ⟨k1, v1⟩ := kv
    simp only [List.map_cons, List.mem_cons, not_or] at h
    show (match dictLookup d k with
      | some w => some w
      | none => if k1 = k then some v1 else none) = none
    rw [ih h.2]
    simp only
    rw [if_neg (by exact fun hk => h.1 hk.symm)]

theorem buildDict_lookup (xs : List γ) (s : Int) (L : List String)
    (d : List (String × γ)) (hd : buildDict xs s L = some d) (hL : L.Nodup)
    (i : Nat) (hi : i < L.length) :
    dictLookup d (L.get ⟨i, hi⟩) = pyGet xs (s + i) := by
  induction L generalizing s d i with
  | nil => simp at hi
  | cons l L ih =>
    rw [buildDict_cons] at hd
    cases hg : pyGet xs s with
    | none => rw [hg] at hd; simp at hd
    | some v =>
      rw [hg] at hd
      cases hrest : buildDict xs (s + 1) L with
      | none => rw [hrest] at hd; simp at hd
      | some d' =>
        rw [hrest] at hd
        simp only [Option.some_bind, Option.map_some'] at hd
        cases hd
        have hnd := List.nodup_cons.mp hL
        cases i with
        | zero =>
          show (match dictLookup d' l with
            | some w => some w
            | none => if l = l then some v else none) = pyGet xs (s + (0 : Nat))
          rw [dictLookup_not_mem d' l (by rw [buildDict_keys xs (s + 1) L d' hrest]; exact hnd.1)]
          simp only [if_pos rfl]
          rw [hg.symm]
          norm_num
        | succ i =>
          have hi' : i < L.length := by simpa using hi
          have hrec := ih (s + 1) d' hrest hnd.2 i hi'
          show (match dictLookup d' (L.get ⟨i, hi'⟩) with
            | some w => some w
            | none => if l = L.get ⟨i, hi'⟩ then some v else none) =
              pyGet xs (s + ((i : Nat) + 1 : Nat))
          rw [hrec]
          have harith : s + 1 + (i : Int) = s + ((i : Nat) + 1 : Nat) := by push_cast; ring
          cases hpg : pyGet xs (s + 1 + (i : Int)) with
          | some w => rw [harith] at hpg; rw [hpg]
          | none =>
            rw [harith] at hpg
            rw [hpg]
            simp only
            have hne : l ≠ L.get ⟨i, hi'⟩ := by
              intro hk
              rw [hk] at hnd
              exact hnd.1 (List.get_mem L i hi')
            rw [if_neg hne]

theorem dget_buildDict (xs : List γ) (s : Int) (L : List String) (hL : L.Nodup)
    (hsome : (buildDict xs s L).isSome) (i : Nat) (hi : i < L.length) :
    dget (buildDict xs s L) (L.get ⟨i, hi⟩) = pyGet xs (s + i) := by
  obtain ⟨d, hd⟩ := Option.isSome_iff_exists.mp hsome
  rw [dget, hd, Option.some_bind]
  exact buildDict_lookup xs s L d hd hL i hi

theorem dictLookup_map (d : List (String × γ)) (g : γ → γ') (k : String) :
    dictLookup (d.map (fun kv => (kv.1, g kv.2))) k = (dictLookup d k).map g := by
  induction d with
  | nil => rfl
  | cons kv d ih =>
    obtain ⟨k1, v1⟩ := kv
    simp only [List.map_cons]
    show (match dictLookup (d.map (fun kv => (kv.1, g kv.2))) k with
        | some w => some w
        | none => if k1 = k then some (g v1) else none) =
      Option.map g (match dictLookup d k with
        | some w => some w
        | none => if k1 = k then some v1 else none)
    rw [ih]
    cases dictLookup d k with
    | some w => rfl
    | none =>
      simp only [Option.map_none']
      by_cases hk : k1 = k
      · rw [if_pos hk, if_pos hk]
        rfl
      · rw [if_neg hk, if_neg hk]
        rfl

theorem buildDict_map (xs : List γ) (g : γ → γ') (s : Int) (L : List String) :
    buildDict (xs.map g) s L =
      (buildDict xs s L).map (List.map (fun kv => (kv.1, g kv.2))) := by
  induction L generalizing s with
  | nil => rw [buildDict_nil, buildDict_nil]; rfl
  | cons l L ih =>
    rw [buildDict_cons, buildDict_cons, pyGet_map, ih]
    cases pyGet xs s with
    | none => rfl
    | some v =>
      cases buildDict xs (s + 1) L with
      | none => rfl
      | some d => rfl

theorem dget_map (od : Option (List (String × γ))) (g : γ → γ') (k : String) :
    dget (od.map (List.map (fun kv => (kv.1, g kv.2)))) k = (dget od k).map g := by
  cases od with
  | none => rfl
  | some d => simp [dget, dictLookup_map]

/-- What a successful `Poetry2Tokens.__init__` guarantees: the capacity
check passed, the label lists and the reserved tokens are stored
unchanged, and `_additional_special_ids` is the image of the reserved
tokens under `convert_token_to_id`. -/
theorem init_ok (tok : Tokenizer) (A M R : List String) (p : Poetry2Tokens)
    (h : Poetry2Tokens.init tok A M R = .ok p) :
    A.length + M.length + R.length ≤ tok.additional_special_tokens.length ∧
    p._alliteration_levels = A ∧ p._meters = M ∧ p._rhyme_schemes = R ∧
    p.tokenizer.additional_special_tokens = tok.additional_special_tokens ∧
    p.tokenizer.convert_token_to_id = tok.convert_token_to_id ∧
    p._additional_special_ids =
      tok.additional_special_tokens.map tok.convert_token_to_id := by
  unfold Poetry2Tokens.init at h
  split at h
  · exact absurd h (by simp)
  · next hle =>
    rw [Except.ok.injEq] at h
    subst h
    refine ⟨by omega, rfl, rfl, rfl, ?_, ?_, ?_⟩ <;>
      by_cases hb : tok.isByGPT5 <;> simp [hb]

theorem alliterations2tokens_eq (tok : Tokenizer) (A M R : List String)
    (p : Poetry2Tokens) (h : Poetry2Tokens.init tok A M R = .ok p) :
    p.alliterations2tokens = buildDict tok.additional_special_tokens 0 A := by
  obtain ⟨-, hA, -, -, htk, -, -⟩ := init_ok tok A M R p h
  rw [Poetry2Tokens.alliterations2tokens, hA, htk]

theorem alliterations2ids_eq (tok : Tokenizer) (A M R : List String)
    (p : Poetry2Tokens) (h : Poetry2Tokens.init tok A M R = .ok p) :
    p.alliterations2ids =
      buildDict (tok.additional_special_tokens.map tok.convert_token_to_id) 0 A := by
  obtain ⟨-, hA, -, -, -, -, hid⟩ := init_ok tok A M R p h
  rw [Poetry2Tokens.alliterations2ids, hA, hid]

theorem meters2tokens_eq (tok : Tokenizer) (A M R : List String)
    (p : Poetry2Tokens) (h : Poetry2Tokens.init tok A M R = .ok p) :
    p.meters2tokens =
      buildDict tok.additional_special_tokens ((A.length : Int) - 1) M := by
  obtain ⟨-, hA, hM, -, htk, -, -⟩ := init_ok tok A M R p h
  rw [Poetry2Tokens.meters2tokens, hA, hM, htk]

theorem meters2ids_eq (tok : Tokenizer) (A M R : List String)
    (p : Poetry2Tokens) (h : Poetry2Tokens.init tok A M R = .ok p) :
    p.meters2ids =
      buildDict (tok.additional_special_tokens.map tok.convert_token_to_id)
        ((A.length : Int) - 1) M := by
  obtain ⟨-, hA, hM, -, -, -, hid⟩ := init_ok tok A M R p h
  rw [Poetry2Tokens.meters2ids, hA, hM, hid]

theorem rhymes2tokens_eq (tok : Tokenizer) (A M R : List String)
    (p : Poetry2Tokens) (h : Poetry2Tokens.init tok A M R = .ok p) :
    p.rhymes2tokens =
      buildDict tok.additional_special_tokens
        ((A.length : Int) + M.length - 1) R := by
  obtain ⟨-, hA, hM, hR, htk, -, -⟩ := init_ok tok A M R p h
  rw [Poetry2Tokens.rhymes2tokens, hA, hM, hR, htk]

theorem rhymes2ids_eq (tok : Tokenizer) (A M R : List String)
    (p : Poetry2Tokens) (h : Poetry2Tokens.init tok A M R = .ok p) :
    p.rhymes2ids =
      buildDict (tok.additional_special_tokens.map tok.convert_token_to_id)
        ((A.length : Int) + M.length - 1) R := by
  obtain ⟨-, hA, hM, hR, -, -, hid⟩ := init_ok tok A M R p h
  rw [Poetry2Tokens.rhymes2ids, hA, hM, hR, hid]

theorem buildDict_isSome_of_blocks (xs : List γ) (s : Int) (L : List String)
    (hblock : ∀ t : Int, s ≤ t → t < s + (L.length : Int) →
      -(xs.length : Int) ≤ t ∧ t < (xs.length : Int)) :
    (buildDict xs s L).isSome := by
  rw [buildDict_isSome]
  intro t h1 h2
  rw [pyGet_isSome]
  exact hblock t h1 h2

/-- On success of the constructor, none of the six lazily computed dict
properties can raise an IndexError: every enumerated index is a valid
Python index of the reserved lists. -/
theorem init_dicts_isSome (tok : Tokenizer) (A M R : List String)
    (p : Poetry2Tokens) (h : Poetry2Tokens.init tok A M R = .ok p) :
    p.alliterations2tokens.isSome ∧ p.alliterations2ids.isSome ∧
    p.meters2tokens.isSome ∧ p.meters2ids.isSome ∧
    p.rhymes2tokens.isSome ∧ p.rhymes2ids.isSome := by
  obtain ⟨hlen, -, -, -, -, -, -⟩ := init_ok tok A M R p h
  have hmap : (tok.additional_special_tokens.map tok.convert_token_to_id).length =
      tok.additional_special_tokens.length := List.length_map _ _
  refine ⟨?_, ?_, ?_, ?_, ?_, ?_⟩
  · rw [alliterations2tokens_eq tok A M R p h]
    exact buildDict_isSome_of_blocks _ _ _ (fun t h1 h2 => by omega)
  · rw [alliterations2ids_eq tok A M R p h]
    exact buildDict_isSome_of_blocks _ _ _ (fun t h1 h2 => by rw [hmap]; omega)
  · rw [meters2tokens_eq tok A M R p h]
    exact buildDict_isSome_of_blocks _ _ _ (fun t h1 h2 => by omega)
  · rw [meters2ids_eq tok A M R p h]
    exact buildDict_isSome_of_blocks _ _ _ (fun t h1 h2 => by rw [hmap]; omega)
  · rw [rhymes2tokens_eq tok A M R p h]
    exact buildDict_isSome_of_blocks _ _ _ (fun t h1 h2 => by omega)
  · rw [rhymes2ids_eq tok A M R p h]
    exact buildDict_isSome_of_blocks _ _ _ (fun t h1 h2 => by rw [hmap]; omega)

/-- The set of indices the six properties enumerate, in terms of the
three label-list lengths. -/
theorem usedIndices_mem (tok : Tokenizer) (A M R : List String)
    (p : Poetry2Tokens) (h : Poetry2Tokens.init tok A M R = .ok p) (t : Int) :
    t ∈ p.usedIndices ↔
      (0 ≤ t ∧ t < (A.length : Int)) ∨
      ((A.length : Int) - 1 ≤ t ∧ t < (A.length : Int) - 1 + M.length) ∨
      ((A.length : Int) + M.length - 1 ≤ t ∧
        t < (A.length : Int) + M.length - 1 + R.length) := by
  obtain ⟨-, hA, hM, hR, -, -, -⟩ := init_ok tok A M R p h
  rw [Poetry2Tokens.usedIndices, hA, hM, hR]
  simp only [List.mem_append, pyEnumerate_fst_mem]
  omega

theorem allit_token_lookup (tok : Tokenizer) (A M R : List String)
    (p : Poetry2Tokens) (h : Poetry2Tokens.init tok A M R = .ok p)
    (hA : A.Nodup) (i : Nat) (hi : i < A.length) :
    dget p.alliterations2tokens (A.get ⟨i, hi⟩) =
      pyGet tok.additional_special_tokens (i : Int) := by
  have hs := (init_dicts_isSome tok A M R p h).1
  rw [alliterations2tokens_eq tok A M R p h] at hs ⊢
  rw [dget_buildDict _ 0 A hA hs i hi, zero_add]

theorem allit_id_lookup (tok : Tokenizer) (A M R : List String)
    (p : Poetry2Tokens) (h : Poetry2Tokens.init tok A M R = .ok p)
    (hA : A.Nodup) (i : Nat) (hi : i < A.length) :
    dget p.alliterations2ids (A.get ⟨i, hi⟩) =
      pyGet (tok.additional_special_tokens.map tok.convert_token_to_id) (i : Int) := by
  have hs := (init_dicts_isSome tok A M R p h).2.1
  rw [alliterations2ids_eq tok A M R p h] at hs ⊢
  rw [dget_buildDict _ 0 A hA hs i hi, zero_add]

theorem meter_token_lookup (tok : Tokenizer) (A M R : List String)
    (p : Poetry2Tokens) (h : Poetry2Tokens.init tok A M R = .ok p)
    (hM : M.Nodup) (j : Nat) (hj : j < M.length) :
    dget p.meters2tokens (M.get ⟨j, hj⟩) =
      pyGet tok.additional_special_tokens ((A.length : Int) - 1 + j) := by
  have hs := (init_dicts_isSome tok A M R p h).2.2.1
  rw [meters2tokens_eq tok A M R p h] at hs ⊢
  rw [dget_buildDict _ _ M hM hs j hj]

theorem meter_id_lookup (tok : Tokenizer) (A M R : List String)
    (p : Poetry2Tokens) (h : Poetry2Tokens.init tok A M R = .ok p)
    (hM : M.Nodup) (j : Nat) (hj : j < M.length) :
    dget p.meters2ids (M.get ⟨j, hj⟩) =
      pyGet (tok.additional_special_tokens.map tok.convert_token_to_id)
        ((A.length : Int) - 1 + j) := by
  have hs := (init_dicts_isSome tok A M R p h).2.2.2.1
  rw [meters2ids_eq tok A M R p h] at hs ⊢
  rw [dget_buildDict _ _ M hM hs j hj]

theorem rhyme_token_lookup (tok : Tokenizer) (A M R : List String)
    (p : Poetry2Tokens) (h : Poetry2Tokens.init tok A M R = .ok p)
    (hR : R.Nodup) (k : Nat) (hk : k < R.length) :
    dget p.rhymes2tokens (R.get ⟨k, hk⟩) =
      pyGet tok.additional_special_tokens ((A.length : Int) + M.length - 1 + k) := by
  have hs := (init_dicts_isSome tok A M R p h).2.2.2.2.1
  rw [rhymes2tokens_eq tok A M R p h] at hs ⊢
  rw [dget_buildDict _ _ R hR hs k hk]

theorem rhyme_id_lookup (tok : Tokenizer) (A M R : List String)
    (p : Poetry2Tokens) (h : Poetry2Tokens.init tok A M R = .ok p)
    (hR : R.Nodup) (k : Nat) (hk : k < R.length) :
    dget p.rhymes2ids (R.get ⟨k, hk⟩) =
      pyGet (tok.additional_special_tokens.map tok.convert_token_to_id)
        ((A.length : Int) + M.length - 1 + k) := by
  have hs := (init_dicts_isSome tok A M R p h).2.2.2.2.2
  rw [rhymes2ids_eq tok A M R p h] at hs ⊢
  rw [dget_buildDict _ _ R hR hs k hk]

/-! ## Claim theorems -/

/-- C1: for label sequences A, M, R accepted by the constructor, the
i-th alliteration level maps to index `i` of the reserved sequence, the
j-th meter to index `|A| - 1 + j`, and the k-th rhyme scheme to index
`|A| + |M| - 1 + k`, both in the label-to-token dicts (indices into the
reserved-token list) and in the label-to-id dicts (same indices into the
converted id list), with Python indexing semantics. -/
theorem mapper_positional_offsets (tok : Tokenizer) (A M R : List String)
    (p : Poetry2Tokens) (h : Poetry2Tokens.init tok A M R = .ok p)
    (hA : A.Nodup) (hM : M.Nodup) (hR : R.Nodup) :
    (∀ i (hi : i < A.length),
      dget p.alliterations2tokens (A.get ⟨i, hi⟩) =
        pyGet tok.additional_special_tokens (i : Int) ∧
      dget p.alliterations2ids (A.get ⟨i, hi⟩) =
        pyGet (tok.additional_special_tokens.map tok.convert_token_to_id)
          (i : Int)) ∧
    (∀ j (hj : j < M.length),
      dget p.meters2tokens (M.get ⟨j, hj⟩) =
        pyGet tok.additional_special_tokens ((A.length : Int) - 1 + j) ∧
      dget p.meters2ids (M.get ⟨j, hj⟩) =
        pyGet (tok.additional_special_tokens.map tok.convert_token_to_id)
          ((A.length : Int) - 1 + j)) ∧
    (∀ k (hk : k < R.length),
      dget p.rhymes2tokens (R.get ⟨k, hk⟩) =
        pyGet tok.additional_special_tokens ((A.length : Int) + M.length - 1 + k) ∧
      dget p.rhymes2ids (R.get ⟨k, hk⟩) =
        pyGet (tok.additional_special_tokens.map tok.convert_token_to_id)
          ((A.length : Int) + M.length - 1 + k)) := by
  refine ⟨fun i hi => ⟨?_, ?_⟩, fun j hj => ⟨?_, ?_⟩, fun k hk => ⟨?_, ?_⟩⟩
  · exact allit_token_lookup tok A M R p h hA i hi
  · exact allit_id_lookup tok A M R p h hA i hi
  · exact meter_token_lookup tok A M R p h hM j hj
  · exact meter_id_lookup tok A M R p h hM j hj
  · exact rhyme_token_lookup tok A M R p h hR k hk
  · exact rhyme_id_lookup tok A M R p h hR k hk

/-- Witness for C1 at a concrete input: three labels, three reserved
tokens; the single meter lands on reserved index 0 (= `|A| - 1`), the
single rhyme scheme on index 1 (= `|A| + |M| - 1`). -/
theorem mapper_positional_offsets_witness :
    Poetry2Tokens.init wTok ["a"] ["m"] ["r"] = .ok wP ∧
    dget wP.meters2tokens "m" = pyGet wTok.additional_special_tokens 0 ∧
    dget wP.rhymes2tokens "r" = pyGet wTok.additional_special_tokens 1 := by
  have h := mapper_positional_offsets wTok ["a"] ["m"] ["r"] wP rfl
    (by decide) (by decide) (by decide)
  refine ⟨rfl, ?_, ?_⟩
  · have h1 := (h.2.1 0 (by decide)).1
    simpa using h1
  · have h2 := (h.2.2 0 (by decide)).1
    simpa using h2

/-- C2: the constructor fails exactly when the three label counts
together exceed the reserved-token count; any input within capacity is
accepted (no other validation). -/
theorem init_error_iff (tok : Tokenizer) (A M R : List String) :
    ((∃ e, Poetry2Tokens.init tok A M R = .error e) ↔
      tok.additional_special_tokens.length <
        A.length + M.length + R.length) ∧
    ((∃ p, Poetry2Tokens.init tok A M R = .ok p) ↔
      A.length + M.length + R.length ≤
        tok.additional_special_tokens.length) := by
  unfold Poetry2Tokens.init
  split
  · next hgt =>
    constructor
    · constructor
      · intro _; omega
      · intro _; exact ⟨_, rfl⟩
    · constructor
      · rintro ⟨p, hp⟩
        simp at hp
      · intro hle; omega
  · next hle =>
    constructor
    · constructor
      · rintro ⟨e, he⟩
        simp at he
      · intro hlt; omega
    · constructor
      · intro _; omega
      · intro _; exact ⟨_, rfl⟩

/-- C10: construction mutates the supplied tokenizer only when it is a
ByGPT5Tokenizer, and then only by setting `add_bos_token` and
`add_eos_token` to true and `bos_token` to `eos_token`; otherwise the
tokenizer the mapper holds is the supplied one, unchanged. -/
theorem init_tokenizer_mutation (tok : Tokenizer) (A M R : List String)
    (p : Poetry2Tokens) (h : Poetry2Tokens.init tok A M R = .ok p) :
    (tok.isByGPT5 = true →
      p.tokenizer = { tok with
        add_bos_token := true
        add_eos_token := true
        bos_token := tok.eos_token }) ∧
    (tok.isByGPT5 = false → p.tokenizer = tok) := by
  unfold Poetry2Tokens.init at h
  split at h
  · exact absurd h (by simp)
  · rw [Except.ok.injEq] at h
    subst h
    constructor <;> intro hb <;> simp [hb]

/-- Witness for C10: the ByGPT5-flagged tokenizer comes back with the
three attributes set, the plain tokenizer comes back unchanged. -/
theorem init_tokenizer_mutation_witness :
    Poetry2Tokens.init wTokB ["a"] ["m"] ["r"] = .ok wPB ∧
    wPB.tokenizer = { wTokB with
      add_bos_token := true
      add_eos_token := true
      bos_token := wTokB.eos_token } ∧
    Poetry2Tokens.init wTok ["a"] ["m"] ["r"] = .ok wP ∧
    wP.tokenizer = wTok := by
  refine ⟨rfl, ?_, rfl, ?_⟩
  · exact (init_tokenizer_mutation wTokB ["a"] ["m"] ["r"] wPB rfl).1 rfl
  · exact (init_tokenizer_mutation wTok ["a"] ["m"] ["r"] wP rfl).2 rfl

/-- C5: the resume value `train()` hands to the framework is a function
of the overwrite flag and the directory probes: overwrite set or no
output directory gives a fresh run (`none`); directory with a
`config.json` gives the skip-training branch, passing the output
directory itself; directory with a checkpoint but no `config.json`
resumes from the checkpoint `get_last_checkpoint` found. -/
theorem train_resume_cases (ov de cfg : Bool) (last : Option String)
    (dir : String) :
    ((ov = true ∨ de = false) →
      trainResumeCheckpoint ov de last cfg dir = none) ∧
    (ov = false → de = true → cfg = true →
      trainResumeCheckpoint ov de last cfg dir = some dir ∧
      trainSkipsTraining ov de cfg = true) ∧
    (ov = false → de = true → cfg = false → ∀ ck, last = some ck →
      trainResumeCheckpoint ov de last cfg dir = some ck) := by
  cases ov <;> cases de <;> cases cfg <;>
    simp [trainResumeCheckpoint, trainSkipsTraining]

/-- Witness for C5 at concrete flag settings. -/
theorem train_resume_cases_witness :
    trainResumeCheckpoint true true (some "ckpt") true "out" = none ∧
    trainResumeCheckpoint false true (some "ckpt") true "out" = some "out" ∧
    trainResumeCheckpoint false true (some "ckpt") false "out" = some "ckpt" := by
  refine ⟨?_, ?_, ?_⟩
  · exact (train_resume_cases true true true (some "ckpt") "out").1 (Or.inl rfl)
  · exact ((train_resume_cases false true true (some "ckpt") "out").2.1
      rfl rfl rfl).1
  · exact (train_resume_cases false true false (some "ckpt") "out").2.2
      rfl rfl rfl "ckpt" rfl

/-- C6: when the output directory exists, holds a `config.json`, and the
overwrite flag is unset, `train()` takes its skip-training branch (the
branch logging "Skipping training.") regardless of any checkpoint, and
hands the framework the output directory as the resume point. -/
theorem train_zero_steps_when_config (last : Option String) (dir : String) :
    trainSkipsTraining false true true = true ∧
    trainResumeCheckpoint false true last true dir = some dir :=
  ⟨rfl, rfl⟩

/-- C7: the chained 0.1 and 0.5 stratified splits yield train/eval/test
in proportions 90%, 5%, 5%, both splits stratify on the "labels" column,
and the third component of the `load_dataset` triple is what the
constructor stores as the trainer's test split. -/
theorem dataset_split_proportions (n : ℚ) :
    loadDatasetSplitSizes n = (9 / 10 * n, 1 / 20 * n, 1 / 20 * n) ∧
    loadDatasetSplit1.test_size = 1 / 10 ∧
    loadDatasetSplit1.stratify_by_column = "labels" ∧
    loadDatasetSplit2.test_size = 1 / 2 ∧
    loadDatasetSplit2.stratify_by_column = "labels" ∧
    ∀ (δ : Type) (res : δ × δ × δ),
      (trainerInitDatasets δ res).test_dataset = res.2.2 := by
  refine ⟨?_, rfl, rfl, rfl, rfl, fun δ res => rfl⟩
  rw [loadDatasetSplitSizes]
  simp only [loadDatasetSplit1, loadDatasetSplit2, Prod.mk.injEq]
  refine ⟨by ring, by ring, by ring⟩

/-- C8: for every successfully constructed mapper, every enumerated
index is strictly below the reserved-list length, the largest index is
`|A| + |M| + |R| - 2` whenever there is at least one rhyme scheme, and
none of the six mapping properties can hit an IndexError. -/
theorem mapper_indices_in_range (tok : Tokenizer) (A M R : List String)
    (p : Poetry2Tokens) (h : Poetry2Tokens.init tok A M R = .ok p) :
    (∀ t ∈ p.usedIndices, t < (tok.additional_special_tokens.length : Int)) ∧
    (R ≠ [] →
      ((A.length : Int) + M.length + R.length - 2 ∈ p.usedIndices ∧
       ∀ t ∈ p.usedIndices,
         t ≤ (A.length : Int) + M.length + R.length - 2)) ∧
    p.alliterations2tokens.isSome ∧ p.alliterations2ids.isSome ∧
    p.meters2tokens.isSome ∧ p.meters2ids.isSome ∧
    p.rhymes2tokens.isSome ∧ p.rhymes2ids.isSome := by
  obtain ⟨hlen, -, -, -, -, -, -⟩ := init_ok tok A M R p h
  refine ⟨?_, ?_, init_dicts_isSome tok A M R p h⟩
  · intro t ht
    rw [usedIndices_mem tok A M R p h] at ht
    omega
  · intro hRne
    have hR1 : 0 < R.length := List.length_pos.mpr hRne
    constructor
    · rw [usedIndices_mem tok A M R p h]
      omega
    · intro t ht
      rw [usedIndices_mem tok A M R p h] at ht
      omega

/-- Witness for C8: concrete mapper; the maximal enumerated index
`1 + 1 + 1 - 2 = 1` is used, and the rhyme dict builds without error. -/
theorem mapper_indices_in_range_witness :
    ((["a"].length : Int) + ["m"].length + ["r"].length - 2 ∈ wP.usedIndices) ∧
    wP.rhymes2tokens.isSome = true := by
  have h := mapper_indices_in_range wTok ["a"] ["m"] ["r"] wP rfl
  exact ⟨(h.2.1 (by decide)).1, h.2.2.2.2.2.2.1⟩

/-- C9: for every label of any of the three label sets, the id the
`*2ids` dict assigns is `convert_token_to_id` of the token the matching
`*2tokens` dict assigns, because `_additional_special_ids` is the
pointwise image of the reserved tokens and both dicts use the same
index. -/
theorem mapper_token_id_coherent (tok : Tokenizer) (A M R : List String)
    (p : Poetry2Tokens) (h : Poetry2Tokens.init tok A M R = .ok p) :
    (∀ l ∈ A, dget p.alliterations2ids l =
      (dget p.alliterations2tokens l).map tok.convert_token_to_id) ∧
    (∀ l ∈ M, dget p.meters2ids l =
      (dget p.meters2tokens l).map tok.convert_token_to_id) ∧
    (∀ l ∈ R, dget p.rhymes2ids l =
      (dget p.rhymes2tokens l).map tok.convert_token_to_id) := by
  refine ⟨fun l _ => ?_, fun l _ => ?_, fun l _ => ?_⟩
  · rw [alliterations2ids_eq tok A M R p h, buildDict_map, dget_map,
      ← alliterations2tokens_eq tok A M R p h]
  · rw [meters2ids_eq tok A M R p h, buildDict_map, dget_map,
      ← meters2tokens_eq tok A M R p h]
  · rw [rhymes2ids_eq tok A M R p h, buildDict_map, dget_map,
      ← rhymes2tokens_eq tok A M R p h]

/-- Witness for C9 on the concrete mapper: the single meter's id is the
conversion of its token. -/
theorem mapper_token_id_coherent_witness :
    dget wP.meters2ids "m" =
      (dget wP.meters2tokens "m").map wTok.convert_token_to_id :=
  (mapper_token_id_coherent wTok ["a"] ["m"] ["r"] wP rfl).2.1 "m" (by decide)

/-- C3 counterexample: with A = ["a"], M = ["m"], R = ["r"] and three
pairwise-distinct reserved tokens (distinct ids too), the mapper is
constructed, yet the distinct labels "a" (last alliteration level) and
"m" (first meter) receive the same token "t0" and the same id 10: the
combined label-to-token and label-to-id mappings are not injective. -/
theorem mapper_injectivity_counterexample :
    Poetry2Tokens.init wTok ["a"] ["m"] ["r"] = .ok wP ∧
    wTok.additional_special_tokens.Nodup ∧
    ["a"].length + ["m"].length + ["r"].length ≤
      wTok.additional_special_tokens.length ∧
    "a" ≠ "m" ∧
    dget wP.alliterations2tokens "a" = some "t0" ∧
    dget wP.meters2tokens "m" = some "t0" ∧
    dget wP.alliterations2ids "a" = some 10 ∧
    dget wP.meters2ids "m" = some 10 := by
  refine ⟨rfl, by decide, by decide, by decide, by decide, by decide,
    by decide, by decide⟩

/-- C3 amended: with nonempty, duplicate-free label sets and distinct
reserved tokens and ids, each of the three label-to-token and
label-to-id mappings is injective on its own label set, and the union of
the enumerated index ranges is the contiguous range
`[0, |A| + |M| + |R| - 1)` — no gaps, with the single boundary overlap
accounting for the missing index. Injectivity across set boundaries
fails (see the counterexample). -/
theorem mapper_blockwise_injective (tok : Tokenizer) (A M R : List String)
    (p : Poetry2Tokens) (h : Poetry2Tokens.init tok A M R = .ok p)
    (hA : A.Nodup) (hM : M.Nodup) (hR : R.Nodup)
    (htok : tok.additional_special_tokens.Nodup)
    (hids : (tok.additional_special_tokens.map tok.convert_token_to_id).Nodup)
    (hAne : A ≠ []) (hMne : M ≠ []) (hRne : R ≠ []) :
    (∀ i j (hi : i < A.length) (hj : j < A.length),
      dget p.alliterations2tokens (A.get ⟨i, hi⟩) =
        dget p.alliterations2tokens (A.get ⟨j, hj⟩) → i = j) ∧
    (∀ i j (hi : i < A.length) (hj : j < A.length),
      dget p.alliterations2ids (A.get ⟨i, hi⟩) =
        dget p.alliterations2ids (A.get ⟨j, hj⟩) → i = j) ∧
    (∀ i j (hi : i < M.length) (hj : j < M.length),
      dget p.meters2tokens (M.get ⟨i, hi⟩) =
        dget p.meters2tokens (M.get ⟨j, hj⟩) → i = j) ∧
    (∀ i j (hi : i < M.length) (hj : j < M.length),
      dget p.meters2ids (M.get ⟨i, hi⟩) =
        dget p.meters2ids (M.get ⟨j, hj⟩) → i = j) ∧
    (∀ i j (hi : i < R.length) (hj : j < R.length),
      dget p.rhymes2tokens (R.get ⟨i, hi⟩) =
        dget p.rhymes2tokens (R.get ⟨j, hj⟩) → i = j) ∧
    (∀ i j (hi : i < R.length) (hj : j < R.length),
      dget p.rhymes2ids (R.get ⟨i, hi⟩) =
        dget p.rhymes2ids (R.get ⟨j, hj⟩) → i = j) ∧
    (∀ t : Int, t ∈ p.usedIndices ↔
      0 ≤ t ∧ t < (A.length : Int) + M.length + R.length - 1) := by
  obtain ⟨hlen, -, -, -, -, -, -⟩ := init_ok tok A M R p h
  have hA1 : 0 < A.length := List.length_pos.mpr hAne
  have hM1 : 0 < M.length := List.length_pos.mpr hMne
  have hR1 : 0 < R.length := List.length_pos.mpr hRne
  have hmaplen : (tok.additional_special_tokens.map tok.convert_token_to_id).length =
      tok.additional_special_tokens.length := List.length_map _ _
  refine ⟨?_, ?_, ?_, ?_, ?_, ?_, ?_⟩
  · intro i j hi hj heq
    rw [allit_token_lookup tok A M R p h hA i hi,
      allit_token_lookup tok A M R p h hA j hj] at heq
    have := pyGet_inj _ htok _ _ (by omega) (by omega) (by omega) (by omega) heq
    omega
  · intro i j hi hj heq
    rw [allit_id_lookup tok A M R p h hA i hi,
      allit_id_lookup tok A M R p h hA j hj] at heq
    have := pyGet_inj _ hids _ _ (by omega) (by omega)
      (by omega) (by omega) heq
    omega
  · intro i j hi hj heq
    rw [meter_token_lookup tok A M R p h hM i hi,
      meter_token_lookup tok A M R p h hM j hj] at heq
    have := pyGet_inj _ htok _ _ (by omega) (by omega) (by omega) (by omega) heq
    omega
  · intro i j hi hj heq
    rw [meter_id_lookup tok A M R p h hM i hi,
      meter_id_lookup tok A M R p h hM j hj] at heq
    have := pyGet_inj _ hids _ _ (by omega) (by omega) (by omega) (by omega) heq
    omega
  · intro i j hi hj heq
    rw [rhyme_token_lookup tok A M R p h hR i hi,
      rhyme_token_lookup tok A M R p h hR j hj] at heq
    have := pyGet_inj _ htok _ _ (by omega) (by omega) (by omega) (by omega) heq
    omega
  · intro i j hi hj heq
    rw [rhyme_id_lookup tok A M R p h hR i hi,
      rhyme_id_lookup tok A M R p h hR j hj] at heq
    have := pyGet_inj _ hids _ _ (by omega) (by omega) (by omega) (by omega) heq
    omega
  · intro t
    rw [usedIndices_mem tok A M R p h]
    omega

/-- Witness for the amended C3 on the concrete mapper: distinct
alliteration-block positions give distinct lookups trivially (the block
has size one), and the used indices are exactly `{0, 1}` =
`[0, 1 + 1 + 1 - 1)`. -/
theorem mapper_blockwise_injective_witness :
    ((0 : Int) ∈ wP.usedIndices ∧ (1 : Int) ∈ wP.usedIndices) ∧
    ¬ ((2 : Int) ∈ wP.usedIndices) := by
  have h := mapper_blockwise_injective wTok ["a"] ["m"] ["r"] wP rfl
    (by decide) (by decide) (by decide) (by decide) (by decide)
    (by decide) (by decide) (by decide)
  have hiff := h.2.2.2.2.2.2
  constructor
  · constructor
    · refine (hiff 0).mpr ?_
      norm_num
    · refine (hiff 1).mpr ?_
      norm_num
  · intro hmem
    have := (hiff 2).mp hmem
    norm_num at this

/-- C4 counterexample: with A = ["a"], M = ["m"], R = ["r"] and three
distinct reserved tokens, the first rhyme scheme gets token "t1" and
id 11 while the last meter gets token "t0" and id 10 — the rhyme block
does NOT overlap the meter block, contradicting the claim's second
conjunct. -/
theorem meter_rhyme_overlap_counterexample :
    Poetry2Tokens.init wTok ["a"] ["m"] ["r"] = .ok wP ∧
    dget wP.rhymes2tokens "r" = some "t1" ∧
    dget wP.meters2tokens "m" = some "t0" ∧
    ("t1" : String) ≠ "t0" ∧
    dget wP.rhymes2ids "r" = some 11 ∧
    dget wP.meters2ids "m" = some 10 ∧
    (11 : Int) ≠ 10 := by
  refine ⟨rfl, by decide, by decide, by decide, by decide, by decide,
    by decide⟩

/-- C4 amended: only the alliteration/meter boundary overlaps — the
first meter receives exactly the last alliteration level's token and id
(index `|A| - 1`); the rhyme block instead starts at `|A| + |M| - 1`,
one past the last meter index `|A| + |M| - 2`, so with distinct reserved
tokens and ids the first rhyme scheme's token and id differ from the
last meter's. -/
theorem block_boundary_overlap (tok : Tokenizer) (A M R : List String)
    (p : Poetry2Tokens) (h : Poetry2Tokens.init tok A M R = .ok p)
    (hA : A.Nodup) (hM : M.Nodup) (hR : R.Nodup)
    (htok : tok.additional_special_tokens.Nodup)
    (hids : (tok.additional_special_tokens.map tok.convert_token_to_id).Nodup)
    (hAne : A ≠ []) (hMne : M ≠ []) (hRne : R ≠ []) :
    dget p.meters2tokens (M.get ⟨0, List.length_pos.mpr hMne⟩) =
      dget p.alliterations2tokens
        (A.get ⟨A.length - 1, Nat.sub_lt (List.length_pos.mpr hAne) one_pos⟩) ∧
    dget p.meters2ids (M.get ⟨0, List.length_pos.mpr hMne⟩) =
      dget p.alliterations2ids
        (A.get ⟨A.length - 1, Nat.sub_lt (List.length_pos.mpr hAne) one_pos⟩) ∧
    dget p.rhymes2tokens (R.get ⟨0, List.length_pos.mpr hRne⟩) =
      pyGet tok.additional_special_tokens ((A.length : Int) + M.length - 1) ∧
    dget p.meters2tokens
        (M.get ⟨M.length - 1, Nat.sub_lt (List.length_pos.mpr hMne) one_pos⟩) =
      pyGet tok.additional_special_tokens ((A.length : Int) + M.length - 2) ∧
    dget p.rhymes2tokens (R.get ⟨0, List.length_pos.mpr hRne⟩) ≠
      dget p.meters2tokens
        (M.get ⟨M.length - 1, Nat.sub_lt (List.length_pos.mpr hMne) one_pos⟩) ∧
    dget p.rhymes2ids (R.get ⟨0, List.length_pos.mpr hRne⟩) ≠
      dget p.meters2ids
        (M.get ⟨M.length - 1, Nat.sub_lt (List.length_pos.mpr hMne) one_pos⟩) := by
  obtain ⟨hlen, -, -, -, -, -, -⟩ := init_ok tok A M R p h
  have hA1 : 0 < A.length := List.length_pos.mpr hAne
  have hM1 : 0 < M.length := List.length_pos.mpr hMne
  have hR1 : 0 < R.length := List.length_pos.mpr hRne
  have hmaplen : (tok.additional_special_tokens.map tok.convert_token_to_id).length =
      tok.additional_special_tokens.length := List.length_map _ _
  have harith1 : (A.length : Int) - 1 + ((0 : Nat) : Int) =
      (((A.length - 1 : Nat)) : Int) := by push_cast; omega
  have harith2 : (A.length : Int) - 1 + (((M.length - 1 : Nat)) : Int) =
      (A.length : Int) + M.length - 2 := by push_cast [hM1]; omega
  have harith3 : (A.length : Int) + M.length - 1 + ((0 : Nat) : Int) =
      (A.length : Int) + M.length - 1 := by push_cast; omega
  refine ⟨?_, ?_, ?_, ?_, ?_, ?_⟩
  · rw [meter_token_lookup tok A M R p h hM 0 hM1,
      allit_token_lookup tok A M R p h hA (A.length - 1)
        (Nat.sub_lt hA1 one_pos), harith1]
  · rw [meter_id_lookup tok A M R p h hM 0 hM1,
      allit_id_lookup tok A M R p h hA (A.length - 1)
        (Nat.sub_lt hA1 one_pos), harith1]
  · rw [rhyme_token_lookup tok A M R p h hR 0 hR1, harith3]
  · rw [meter_token_lookup tok A M R p h hM (M.length - 1)
      (Nat.sub_lt hM1 one_pos), harith2]
  · rw [rhyme_token_lookup tok A M R p h hR 0 hR1, harith3,
      meter_token_lookup tok A M R p h hM (M.length - 1)
        (Nat.sub_lt hM1 one_pos), harith2]
    intro heq
    have := pyGet_inj _ htok _ _ (by omega) (by omega) (by omega) (by omega) heq
    omega
  · rw [rhyme_id_lookup tok A M R p h hR 0 hR1, harith3,
      meter_id_lookup tok A M R p h hM (M.length - 1)
        (Nat.sub_lt hM1 one_pos), harith2]
    intro heq
    have := pyGet_inj _ hids _ _ (by omega) (by omega) (by omega) (by omega) heq
    omega

/-- Witness for the amended C4 on the concrete mapper: the single meter
and the single alliteration level share their token, while the single
rhyme scheme's token differs from the meter's. -/
theorem block_boundary_overlap_witness :
    dget wP.meters2tokens "m" = dget wP.alliterations2tokens "a" ∧
    dget wP.rhymes2tokens "r" ≠ dget wP.meters2tokens "m" := by
  have h := block_boundary_overlap wTok ["a"] ["m"] ["r"] wP rfl
    (by decide) (by decide) (by decide) (by decide) (by decide)
    (by decide) (by decide) (by decide)
  exact ⟨h.1, h.2.2.2.2.1⟩
